import Mathlib

/-!
Verification development for the TiKV server transport / request-dispatch core
(src/server/grpc_service.rs and src/server/server.rs), as a shallow embedding:
pure result-to-response mappings become Lean functions; the stateful store
router and connection pool become explicit state-passing functions emitting
event lists; streams become lists of chunks/messages; fallible scheduling is
modelled by a boolean oracle.
-/

namespace Tikv

/-- Raw byte strings are modelled as lists of bytes (Nat). -/
abbrev Bytes := List Nat

/-- kvproto errorpb::Error: the region-error payload. `RegionError::new()`
followed by `set_server_is_busy` is modelled by the `serverIsBusy` flag;
all other payload content is opaque. -/
structure RegionError where
  payload : String := ""
  serverIsBusy : Bool := false
deriving DecidableEq, Repr

/-- storage::engine::Error. `Request` carries an errorpb region error; the
remaining variants are opaque (`other`), matching the catch-all `_` arms of
the source matches. -/
inductive EngineError where
  | request (e : RegionError)
  | other (msg : String)
deriving DecidableEq, Repr

/-- storage::mvcc::Error: the variants the source matches on
(`KeyIsLocked`, `WriteConflict`, `TxnLockNotFound`, `Committed`, `Engine`),
plus an opaque remainder. -/
inductive MvccError where
  | keyIsLocked (key : Bytes) (primary : Bytes) (ts : Nat) (ttl : Nat)
  | writeConflict
  | txnLockNotFound
  | committed (commit_ts : Nat)
  | engine (e : EngineError)
  | other (msg : String)
deriving DecidableEq, Repr

/-- storage::txn::Error: `Engine`, `Mvcc`, plus an opaque remainder. -/
inductive TxnError where
  | engine (e : EngineError)
  | mvcc (e : MvccError)
  | other (msg : String)
deriving DecidableEq, Repr

/-- storage::Error: `Engine`, `Txn`, `SchedTooBusy`, plus an opaque
remainder. -/
inductive StorageError where
  | engine (e : EngineError)
  | txn (e : TxnError)
  | schedTooBusy
  | other (msg : String)
deriving DecidableEq, Repr

/-- storage::Result. -/
abbrev StorageResult (α : Type) := Except StorageError α

/-- Stand-in for Rust's derived Debug rendering used by
format with the debug specifier; the produced text is opaque to clients. -/
def StorageError.debug_str : StorageError → String
  | .engine (.request _) => "Engine(Request(..))"
  | .engine (.other s) => "Engine(" ++ s ++ ")"
  | .txn (.engine (.request _)) => "Txn(Engine(Request(..)))"
  | .txn (.engine (.other s)) => "Txn(Engine(" ++ s ++ "))"
  | .txn (.mvcc (.keyIsLocked _ _ _ _)) => "Txn(Mvcc(KeyIsLocked))"
  | .txn (.mvcc .writeConflict) => "Txn(Mvcc(WriteConflict))"
  | .txn (.mvcc .txnLockNotFound) => "Txn(Mvcc(TxnLockNotFound))"
  | .txn (.mvcc (.committed ts)) => "Txn(Mvcc(Committed(" ++ toString ts ++ ")))"
  | .txn (.mvcc (.engine _)) => "Txn(Mvcc(Engine))"
  | .txn (.mvcc (.other s)) => "Txn(Mvcc(" ++ s ++ "))"
  | .txn (.other s) => "Txn(" ++ s ++ ")"
  | .schedTooBusy => "SchedTooBusy"
  | .other s => s

/-- Stand-in for Rust's Display rendering used by format in the raw paths;
also opaque to clients. -/
def StorageError.display_str (e : StorageError) : String :=
  "storage error: " ++ e.debug_str

/-- grpc_service.rs extract_region_error: an engine-level Request error at
any of the three nesting depths yields its region error; SchedTooBusy yields
a fresh region error with server_is_busy set; everything else yields None. -/
def extract_region_error {T : Type} (res : StorageResult T) : Option RegionError :=
  match res with
  | .error (.engine (.request e)) => some e
  | .error (.txn (.engine (.request e))) => some e
  | .error (.txn (.mvcc (.engine (.request e)))) => some e
  | .error .schedTooBusy => some { payload := "", serverIsBusy := true }
  | _ => none

/-- grpc_service.rs extract_committed: a Txn/Mvcc Committed error yields its
commit timestamp. -/
def extract_committed (err : StorageError) : Option Nat :=
  match err with
  | .txn (.mvcc (.committed commit_ts)) => some commit_ts
  | _ => none

/-- kvproto kvrpcpb::LockInfo. -/
structure LockInfo where
  key : Bytes := []
  primary_lock : Bytes := []
  lock_version : Nat := 0
  lock_ttl : Nat := 0
deriving DecidableEq, Repr

/-- kvproto kvrpcpb::KeyError: at most one of the three branches is set by
the translator. -/
structure KeyError where
  locked : Option LockInfo := none
  retryable : Option String := none
  abort : Option String := none
deriving DecidableEq, Repr

/-- grpc_service.rs extract_key_error: KeyIsLocked becomes a locked result
carrying the lock fields; WriteConflict and TxnLockNotFound become retryable;
everything else becomes abort with opaque text. -/
def extract_key_error (err : StorageError) : KeyError :=
  match err with
  | .txn (.mvcc (.keyIsLocked key primary ts ttl)) =>
      { locked := some { key := key, primary_lock := primary,
                         lock_version := ts, lock_ttl := ttl } }
  | .txn (.mvcc .writeConflict) => { retryable := some err.debug_str }
  | .txn (.mvcc .txnLockNotFound) => { retryable := some err.debug_str }
  | _ => { abort := some err.debug_str }

/-- kvproto kvrpcpb::KvPair: key/value bytes (protobuf default empty) and an
optional per-key error. -/
structure KvPair where
  key : Bytes := []
  value : Bytes := []
  error : Option KeyError := none
deriving DecidableEq, Repr

/-- grpc_service.rs extract_kv_pairs: on a whole-batch success, one KvPair
per element (key/value on element success, error on element failure); on a
whole-batch failure, a single KvPair carrying the error. -/
def extract_kv_pairs (res : StorageResult (List (StorageResult (Bytes × Bytes)))) :
    List KvPair :=
  match res with
  | .ok rs =>
      rs.map fun r =>
        match r with
        | .ok (k, v) => { key := k, value := v }
        | .error e => { error := some (extract_key_error e) }
  | .error e => [{ error := some (extract_key_error e) }]

/-- grpc_service.rs extract_key_errors: on a whole-batch success, one
KeyError per FAILED element (successes contribute nothing); on a whole-batch
failure, a single KeyError. -/
def extract_key_errors (res : StorageResult (List (StorageResult Unit))) :
    List KeyError :=
  match res with
  | .ok rs =>
      rs.filterMap fun r =>
        match r with
        | .ok _ => none
        | .error e => some (extract_key_error e)
  | .error e => [extract_key_error e]

/-! ## Unary handler response mappings (grpc_service.rs)

Each RPC handler awaits the engine result `v` and builds the wire response;
the functions below are those result-to-response mappings, with protobuf
optional fields modelled as `Option` (unset = `none`). -/

/-- kvproto kvrpcpb::GetResponse. -/
structure GetResponse where
  region_error : Option RegionError := none
  value : Option Bytes := none
  error : Option KeyError := none
deriving DecidableEq, Repr

/-- kv_get's response mapping: region error first; else a present value is
set, an ABSENT value sets the value field to the empty byte string, and an
error sets the classified key error. -/
def kv_get_resp (v : StorageResult (Option Bytes)) : GetResponse :=
  match extract_region_error v with
  | some err => { region_error := some err }
  | none =>
      match v with
      | .ok (some val) => { value := some val }
      | .ok none => { value := some [] }
      | .error e => { error := some (extract_key_error e) }

/-- kvproto kvrpcpb::ScanResponse. -/
structure ScanResponse where
  region_error : Option RegionError := none
  pairs : List KvPair := []
deriving DecidableEq, Repr

/-- kv_scan's response mapping. -/
def kv_scan_resp (v : StorageResult (List (StorageResult (Bytes × Bytes)))) :
    ScanResponse :=
  match extract_region_error v with
  | some err => { region_error := some err }
  | none => { pairs := extract_kv_pairs v }

/-- kvproto kvrpcpb::PrewriteResponse. -/
structure PrewriteResponse where
  region_error : Option RegionError := none
  errors : List KeyError := []
deriving DecidableEq, Repr

/-- kv_prewrite's response mapping. -/
def kv_prewrite_resp (v : StorageResult (List (StorageResult Unit))) :
    PrewriteResponse :=
  match extract_region_error v with
  | some err => { region_error := some err }
  | none => { errors := extract_key_errors v }

/-- kvproto kvrpcpb::CommitResponse. -/
structure CommitResponse where
  region_error : Option RegionError := none
  error : Option KeyError := none
deriving DecidableEq, Repr

/-- kv_commit's response mapping. -/
def kv_commit_resp (v : StorageResult Unit) : CommitResponse :=
  match extract_region_error v with
  | some err => { region_error := some err }
  | none =>
      match v with
      | .ok _ => {}
      | .error e => { error := some (extract_key_error e) }

/-- kvproto kvrpcpb::BatchGetResponse. -/
structure BatchGetResponse where
  region_error : Option RegionError := none
  pairs : List KvPair := []
deriving DecidableEq, Repr

/-- kv_batch_get's response mapping. -/
def kv_batch_get_resp (v : StorageResult (List (StorageResult (Bytes × Bytes)))) :
    BatchGetResponse :=
  match extract_region_error v with
  | some err => { region_error := some err }
  | none => { pairs := extract_kv_pairs v }

/-- kvproto kvrpcpb::CleanupResponse. -/
structure CleanupResponse where
  region_error : Option RegionError := none
  error : Option KeyError := none
  commit_version : Option Nat := none
deriving DecidableEq, Repr

/-- kv_cleanup's response mapping: region error first; an error whose cause
is an already-committed transaction yields the commit version, any other
error yields the classified key error. -/
def kv_cleanup_resp (v : StorageResult Unit) : CleanupResponse :=
  match extract_region_error v with
  | some err => { region_error := some err }
  | none =>
      match v with
      | .ok _ => {}
      | .error e =>
          match extract_committed e with
          | some ts => { commit_version := some ts }
          | none => { error := some (extract_key_error e) }

/-- kvproto kvrpcpb::BatchRollbackResponse. -/
structure BatchRollbackResponse where
  region_error : Option RegionError := none
  error : Option KeyError := none
deriving DecidableEq, Repr

/-- kv_batch_rollback's response mapping. -/
def kv_batch_rollback_resp (v : StorageResult Unit) : BatchRollbackResponse :=
  match extract_region_error v with
  | some err => { region_error := some err }
  | none =>
      match v with
      | .ok _ => {}
      | .error e => { error := some (extract_key_error e) }

/-- kvproto kvrpcpb::ScanLockResponse. -/
structure ScanLockResponse where
  region_error : Option RegionError := none
  locks : List LockInfo := []
  error : Option KeyError := none
deriving DecidableEq, Repr

/-- kv_scan_lock's response mapping. -/
def kv_scan_lock_resp (v : StorageResult (List LockInfo)) : ScanLockResponse :=
  match extract_region_error v with
  | some err => { region_error := some err }
  | none =>
      match v with
      | .ok locks => { locks := locks }
      | .error e => { error := some (extract_key_error e) }

/-- kvproto kvrpcpb::ResolveLockResponse. -/
structure ResolveLockResponse where
  region_error : Option RegionError := none
  error : Option KeyError := none
deriving DecidableEq, Repr

/-- kv_resolve_lock's response mapping. -/
def kv_resolve_lock_resp (v : StorageResult Unit) : ResolveLockResponse :=
  match extract_region_error v with
  | some err => { region_error := some err }
  | none =>
      match v with
      | .ok _ => {}
      | .error e => { error := some (extract_key_error e) }

/-- kvproto kvrpcpb::GCResponse. -/
structure GCResponse where
  region_error : Option RegionError := none
  error : Option KeyError := none
deriving DecidableEq, Repr

/-- kv_gc's response mapping. -/
def kv_gc_resp (v : StorageResult Unit) : GCResponse :=
  match extract_region_error v with
  | some err => { region_error := some err }
  | none =>
      match v with
      | .ok _ => {}
      | .error e => { error := some (extract_key_error e) }

/-- kvproto kvrpcpb::RawGetResponse (error is plain Display text here). -/
structure RawGetResponse where
  region_error : Option RegionError := none
  value : Option Bytes := none
  error : Option String := none
deriving DecidableEq, Repr

/-- raw_get's response mapping: on an absent value the value field is LEFT
UNSET (unlike kv_get). -/
def raw_get_resp (v : StorageResult (Option Bytes)) : RawGetResponse :=
  match extract_region_error v with
  | some err => { region_error := some err }
  | none =>
      match v with
      | .ok (some val) => { value := some val }
      | .ok none => {}
      | .error e => { error := some e.display_str }

/-- kvproto kvrpcpb::RawPutResponse. -/
structure RawPutResponse where
  region_error : Option RegionError := none
  error : Option String := none
deriving DecidableEq, Repr

/-- raw_put's response mapping. -/
def raw_put_resp (v : StorageResult Unit) : RawPutResponse :=
  match extract_region_error v with
  | some err => { region_error := some err }
  | none =>
      match v with
      | .ok _ => {}
      | .error e => { error := some e.display_str }

/-- kvproto kvrpcpb::RawDeleteResponse. -/
structure RawDeleteResponse where
  region_error : Option RegionError := none
  error : Option String := none
deriving DecidableEq, Repr

/-- raw_delete's response mapping. -/
def raw_delete_resp (v : StorageResult Unit) : RawDeleteResponse :=
  match extract_region_error v with
  | some err => { region_error := some err }
  | none =>
      match v with
      | .ok _ => {}
      | .error e => { error := some e.display_str }

/-! ## Streaming handlers (raft, snapshot)

The inbound gRPC stream is a list of messages/chunks. `Scheduler::schedule`
and the raft router send can fail; both are modelled by boolean oracles.
The futures-0.1 combinator chain is modelled directly: `for_each`
short-circuits on the first error, `then` inspects the outcome, `and_then`
runs only on success. -/

/-- kvproto raft_serverpb::SnapshotChunk: either a header message or a data
payload (a chunk may also carry neither, which the handler rejects). -/
structure SnapshotChunk where
  message : Option Nat := none
  data : Bytes := []
deriving DecidableEq, Repr

/-- server/snap.rs Task (only the constructors the service schedules). -/
inductive SnapTask where
  | register (token : Nat) (message : Nat)
  | write (token : Nat) (data : Bytes)
  | close (token : Nat)
  | discard (token : Nat)
deriving DecidableEq, Repr

/-- The per-chunk dispatch inside snapshot's for_each closure: a header
chunk becomes Register, a chunk with non-empty data becomes Write, and a
chunk with neither is the "empty chunk" protocol violation (none). -/
def snap_chunk_task (token : Nat) (c : SnapshotChunk) : Option SnapTask :=
  match c.message with
  | some m => some (.register token m)
  | none => if c.data ≠ [] then some (.write token c.data) else none

/-- The for_each over the chunk stream: schedules each chunk's task in
order, stopping with failure at the first protocol violation or failed
schedule. Returns the successfully scheduled tasks and whether the stream
was consumed without error. -/
def snap_for_each (schedOk : SnapTask → Bool) (token : Nat) :
    List SnapshotChunk → List SnapTask × Bool
  | [] => ([], true)
  | c :: cs =>
      match snap_chunk_task token c with
      | none => ([], false)
      | some t =>
          if schedOk t then
            let r := snap_for_each schedOk token cs
            (t :: r.1, r.2)
          else ([], false)

/-- grpc_service.rs snapshot: after the for_each, the `then` step schedules
Close on success and Discard on failure; the `and_then` step sends the
success acknowledgment to the sink whenever that terminal schedule
succeeded. Returns (scheduled tasks, acknowledgment sent). -/
def snapshot_handler (schedOk : SnapTask → Bool) (token : Nat)
    (chunks : List SnapshotChunk) : List SnapTask × Bool :=
  let r := snap_for_each schedOk token chunks
  let fin : SnapTask := if r.2 then .close token else .discard token
  if schedOk fin then (r.1 ++ [fin], true) else (r.1, false)

/-- The for_each over the raft message stream: each message is forwarded to
the raft router; a router failure stops the loop (remaining messages are
not forwarded). Returns the forwarded messages and the loop outcome. -/
def raft_for_each (routerOk : Nat → Bool) : List Nat → List Nat × Bool
  | [] => ([], true)
  | m :: ms =>
      if routerOk m then
        let r := raft_for_each routerOk ms
        (m :: r.1, r.2)
      else ([], false)

/-- Outcome of the raft handler: which messages reached the router, whether
the spawned future completed successfully, and whether anything was ever
written to the response sink. -/
structure RaftOutcome where
  forwarded : List Nat
  completed : Bool
  ackSent : Bool
deriving DecidableEq, Repr

/-- grpc_service.rs raft: the sink parameter is bound to an underscore and
never used; the future ends with a `then` that discards the for_each
outcome, so it always completes successfully and never writes to the sink. -/
def raft_handler (routerOk : Nat → Bool) (msgs : List Nat) : RaftOutcome :=
  let r := raft_for_each routerOk msgs
  { forwarded := r.1, completed := true, ackSent := false }

/-! ## Store router (server.rs)

`send_store` and `on_resolve_result` run on the single-threaded event loop
and own `store_addrs` (the address cache) and `store_resolving` (the
resolving set). Side effects — scheduling the send worker, issuing a
resolution, reporting unreachable, scheduling a snapshot send — are
returned as an event list. Socket addresses are opaque Nats. -/

/-- kvproto raft_serverpb::RaftMessage, restricted to the routing fields the
router reads (region id, destination peer id, destination store id). -/
structure RaftMessage where
  region_id : Nat := 0
  to_peer_id : Nat := 0
  to_store_id : Nat := 0
deriving DecidableEq, Repr

/-- Modelled from the spec: ConnData (the OutboundMessage) lives outside
src/ — an opaque peer-directed message tagged with a boolean snapshot-
transfer flag; `is_snapshot` models `ConnData::is_snapshot()`. -/
structure ConnData where
  msg : RaftMessage := {}
  is_snapshot : Bool := false
deriving DecidableEq, Repr

/-- Association-list lookup keyed by store id / address. -/
def alist_get (m : List (Nat × Nat)) (k : Nat) : Option Nat :=
  match m with
  | [] => none
  | (k2, v) :: rest => if k2 = k then some v else alist_get rest k

/-- Association-list insert-or-overwrite (HashMap::insert). -/
def alist_insert (m : List (Nat × Nat)) (k v : Nat) : List (Nat × Nat) :=
  match m with
  | [] => [(k, v)]
  | (k2, v2) :: rest =>
      if k2 = k then (k, v) :: rest else (k2, v2) :: alist_insert rest k v

/-- HashSet::remove. -/
def set_remove (s : List Nat) (k : Nat) : List Nat := s.filter (fun x => x ≠ k)

/-- HashSet::insert (no duplicate when already present). -/
def set_insert (s : List Nat) (k : Nat) : List Nat := if k ∈ s then s else k :: s

/-- The router-owned mutable state: the address cache and the resolving
set. -/
structure RouterState where
  store_addrs : List (Nat × Nat) := []
  store_resolving : List Nat := []
deriving DecidableEq, Repr

/-- Observable actions of the router: write_data schedules the send worker,
resolve issues one resolver request (resolve_store), reportUnreachable
notifies the raft router, sendSnapshotSock schedules the snapshot worker. -/
inductive RouterEvent where
  | writeData (addr : Nat) (data : ConnData)
  | resolve (store_id : Nat) (data : ConnData)
  | reportUnreachable (region_id to_peer_id to_store_id : Nat)
  | sendSnapshotSock (addr : Nat) (data : ConnData)
deriving DecidableEq, Repr

/-- server.rs report_unreachable: reads the routing triple from the message
and reports it (failure to deliver the report is only logged). -/
def report_unreachable (data : ConnData) : RouterEvent :=
  .reportUnreachable data.msg.region_id data.msg.to_peer_id data.msg.to_store_id

/-- server.rs send_store: a snapshot message is always re-resolved; else a
cached address is used directly; else a store already being resolved gets
an immediate unreachable report; else the store enters the resolving set
and one resolution is issued. -/
def send_store (s : RouterState) (store_id : Nat) (data : ConnData) :
    RouterState × List RouterEvent :=
  if data.is_snapshot then
    (s, [.resolve store_id data])
  else
    match alist_get s.store_addrs store_id with
    | some addr => (s, [.writeData addr data])
    | none =>
        if store_id ∈ s.store_resolving then
          (s, [report_unreachable data])
        else
          ({ s with store_resolving := set_insert s.store_resolving store_id },
           [.resolve store_id data])

/-- server.rs on_resolve_result: a non-snapshot message leaves the
resolving set; a failed resolution reports unreachable; a successful one
inserts the address into the cache (unconditionally) and then delivers —
snapshot messages to the snapshot worker, others to the send worker. -/
def on_resolve_result (s : RouterState) (store_id : Nat)
    (sock_addr : Except Unit Nat) (data : ConnData) :
    RouterState × List RouterEvent :=
  let s1 :=
    if !data.is_snapshot then
      { s with store_resolving := set_remove s.store_resolving store_id }
    else s
  match sock_addr with
  | .error _ => (s1, [report_unreachable data])
  | .ok addr =>
      let s2 := { s1 with store_addrs := alist_insert s1.store_addrs store_id addr }
      if data.is_snapshot then (s2, [.sendSnapshotSock addr data])
      else (s2, [.writeData addr data])

/-! ## Peer connection pool (server.rs SendRunner)

Connections are keyed by address. Each created connection gets a fresh id
(modelling a distinct underlying channel); whether pushing onto a given
connection's queue succeeds is an oracle on that id. -/

/-- server.rs SendTask: address plus the raft message to deliver. -/
structure SendTask where
  addr : Nat
  msg : RaftMessage
deriving DecidableEq, Repr

/-- The pool state: address → connection id, plus the fresh-id counter. -/
structure SendRunnerState where
  conns : List (Nat × Nat) := []
  next_id : Nat := 0
deriving DecidableEq, Repr

/-- One observable push of a message onto a connection's queue, with the
outcome of the push. -/
structure PushEvent where
  conn_id : Nat
  msg : RaftMessage
  ok : Bool
deriving DecidableEq, Repr

/-- SendRunner::get_conn: entry(addr).or_insert_with(Conn::new) — reuse the
existing connection or lazily create a fresh one. Returns the connection id
and the updated state. -/
def get_conn (s : SendRunnerState) (addr : Nat) : Nat × SendRunnerState :=
  match alist_get s.conns addr with
  | some cid => (cid, s)
  | none =>
      (s.next_id,
       { conns := alist_insert s.conns addr s.next_id, next_id := s.next_id + 1 })

/-- HashMap::remove keyed by address. -/
def alist_remove : List (Nat × Nat) → Nat → List (Nat × Nat)
  | [], _ => []
  | (k2, v) :: rest, k =>
      if k2 = k then alist_remove rest k else (k2, v) :: alist_remove rest k

/-- SendRunner::run (via send): obtain the connection, push the message
once; on push failure remove the connection entry for that address. The
failed message itself is never retried. -/
def SendRunner_run (sendOk : Nat → Bool) (s : SendRunnerState) (t : SendTask) :
    SendRunnerState × List PushEvent :=
  let r := get_conn s t.addr
  if sendOk r.1 then (r.2, [{ conn_id := r.1, msg := t.msg, ok := true }])
  else
    ({ r.2 with conns := alist_remove (r.2.conns) t.addr },
     [{ conn_id := r.1, msg := t.msg, ok := false }])

/-! ## Theorems -/

/-- C6: extract_key_error classifies every single-key transaction error into
exactly one of three categories — KeyIsLocked yields a locked result
carrying the lock key, primary key, lock timestamp and lock TTL;
WriteConflict and TxnLockNotFound yield a retryable result; every other
error yields an abort result carrying opaque diagnostic text. -/
theorem extract_key_error_trichotomy : ∀ err : StorageError,
    ((extract_key_error err).locked.isSome.toNat
      + (extract_key_error err).retryable.isSome.toNat
      + (extract_key_error err).abort.isSome.toNat = 1)
    ∧ (∀ k p ts ttl,
        extract_key_error (.txn (.mvcc (.keyIsLocked k p ts ttl)))
          = { locked := some { key := k, primary_lock := p,
                               lock_version := ts, lock_ttl := ttl } })
    ∧ ((extract_key_error err).locked.isSome = true ↔
        ∃ k p ts ttl, err = .txn (.mvcc (.keyIsLocked k p ts ttl)))
    ∧ ((extract_key_error err).retryable.isSome = true ↔
        (err = .txn (.mvcc .writeConflict) ∨ err = .txn (.mvcc .txnLockNotFound)))
    ∧ ((extract_key_error err).abort.isSome = true →
        (extract_key_error err).abort = some err.debug_str) := by
  intro err
  refine ⟨?_, fun k p ts ttl => rfl, ?_, ?_, ?_⟩ <;>
    rcases err with (re | s1) |
      ((re2 | s2) | (⟨k, p, ts2, ttl⟩ | _ | _ | ts3 | (re3 | s3) | s4) | s5) |
      _ | s6 <;>
    simp [extract_key_error]

/-- C6 witness: the trichotomy applied to a concrete abort-class error. -/
theorem extract_key_error_trichotomy_witness :
    (extract_key_error (.other "boom")).locked.isSome.toNat
      + (extract_key_error (.other "boom")).retryable.isSome.toNat
      + (extract_key_error (.other "boom")).abort.isSome.toNat = 1 :=
  (extract_key_error_trichotomy (.other "boom")).1

/-- C4: in every modelled handler response the region error field and the
per-key error content are mutually exclusive, and an engine success yields
no region error. -/
theorem region_key_error_exclusive :
    (∀ v : StorageResult (Option Bytes),
       (kv_get_resp v).region_error = none ∨ (kv_get_resp v).error = none)
  ∧ (∀ v : StorageResult (List (StorageResult (Bytes × Bytes))),
       (kv_scan_resp v).region_error = none ∨ (kv_scan_resp v).pairs = [])
  ∧ (∀ v : StorageResult (List (StorageResult Unit)),
       (kv_prewrite_resp v).region_error = none ∨ (kv_prewrite_resp v).errors = [])
  ∧ (∀ v : StorageResult Unit,
       (kv_commit_resp v).region_error = none ∨ (kv_commit_resp v).error = none)
  ∧ (∀ v : StorageResult Unit,
       (kv_cleanup_resp v).region_error = none ∨
         ((kv_cleanup_resp v).error = none ∧ (kv_cleanup_resp v).commit_version = none))
  ∧ (∀ v : StorageResult (List (StorageResult (Bytes × Bytes))),
       (kv_batch_get_resp v).region_error = none ∨ (kv_batch_get_resp v).pairs = [])
  ∧ (∀ v : StorageResult Unit,
       (kv_batch_rollback_resp v).region_error = none
         ∨ (kv_batch_rollback_resp v).error = none)
  ∧ (∀ v : StorageResult (List LockInfo),
       (kv_scan_lock_resp v).region_error = none ∨
         ((kv_scan_lock_resp v).locks = [] ∧ (kv_scan_lock_resp v).error = none))
  ∧ (∀ v : StorageResult Unit,
       (kv_resolve_lock_resp v).region_error = none
         ∨ (kv_resolve_lock_resp v).error = none)
  ∧ (∀ v : StorageResult Unit,
       (kv_gc_resp v).region_error = none ∨ (kv_gc_resp v).error = none)
  ∧ (∀ v : StorageResult (Option Bytes),
       (raw_get_resp v).region_error = none ∨ (raw_get_resp v).error = none)
  ∧ (∀ v : StorageResult Unit,
       (raw_put_resp v).region_error = none ∨ (raw_put_resp v).error = none)
  ∧ (∀ v : StorageResult Unit,
       (raw_delete_resp v).region_error = none ∨ (raw_delete_resp v).error = none)
  ∧ (∀ x : Option Bytes, (kv_get_resp (.ok x)).region_error = none)
  ∧ (∀ rs, (kv_scan_resp (.ok rs)).region_error = none)
  ∧ (∀ rs, (kv_prewrite_resp (.ok rs)).region_error = none)
  ∧ ((kv_commit_resp (.ok ())).region_error = none)
  ∧ ((kv_cleanup_resp (.ok ())).region_error = none)
  ∧ (∀ rs, (kv_batch_get_resp (.ok rs)).region_error = none)
  ∧ ((kv_batch_rollback_resp (.ok ())).region_error = none)
  ∧ (∀ locks, (kv_scan_lock_resp (.ok locks)).region_error = none)
  ∧ ((kv_resolve_lock_resp (.ok ())).region_error = none)
  ∧ ((kv_gc_resp (.ok ())).region_error = none)
  ∧ (∀ x, (raw_get_resp (.ok x)).region_error = none)
  ∧ ((raw_put_resp (.ok ())).region_error = none)
  ∧ ((raw_delete_resp (.ok ())).region_error = none) := by
  refine ⟨?_, ?_, ?_, ?_, ?_, ?_, ?_, ?_, ?_, ?_, ?_, ?_, ?_,
          fun x => by rcases x with _ | v <;> rfl,
          fun rs => rfl, fun rs => rfl, rfl, rfl,
          fun rs => rfl, rfl, fun locks => rfl, rfl, rfl,
          fun x => by rcases x with _ | v <;> rfl, rfl, rfl⟩
  · intro v
    rcases h : extract_region_error v with _ | e
    · left; simp only [kv_get_resp, h]; split <;> rfl
    · right; simp [kv_get_resp, h]
  · intro v
    rcases h : extract_region_error v with _ | e
    · left; simp only [kv_scan_resp, h]
    · right; simp [kv_scan_resp, h]
  · intro v
    rcases h : extract_region_error v with _ | e
    · left; simp only [kv_prewrite_resp, h]
    · right; simp [kv_prewrite_resp, h]
  · intro v
    rcases h : extract_region_error v with _ | e
    · left; simp only [kv_commit_resp, h]; split <;> rfl
    · right; simp [kv_commit_resp, h]
  · intro v
    rcases h : extract_region_error v with _ | e
    · left
      simp only [kv_cleanup_resp, h]
      split
      · rfl
      · split <;> rfl
    · right; simp [kv_cleanup_resp, h]
  · intro v
    rcases h : extract_region_error v with _ | e
    · left; simp only [kv_batch_get_resp, h]
    · right; simp [kv_batch_get_resp, h]
  · intro v
    rcases h : extract_region_error v with _ | e
    · left; simp only [kv_batch_rollback_resp, h]; split <;> rfl
    · right; simp [kv_batch_rollback_resp, h]
  · intro v
    rcases h : extract_region_error v with _ | e
    · left; simp only [kv_scan_lock_resp, h]; split <;> rfl
    · right; simp [kv_scan_lock_resp, h]
  · intro v
    rcases h : extract_region_error v with _ | e
    · left; simp only [kv_resolve_lock_resp, h]; split <;> rfl
    · right; simp [kv_resolve_lock_resp, h]
  · intro v
    rcases h : extract_region_error v with _ | e
    · left; simp only [kv_gc_resp, h]; split <;> rfl
    · right; simp [kv_gc_resp, h]
  · intro v
    rcases h : extract_region_error v with _ | e
    · left; simp only [raw_get_resp, h]; split <;> rfl
    · right; simp [raw_get_resp, h]
  · intro v
    rcases h : extract_region_error v with _ | e
    · left; simp only [raw_put_resp, h]; split <;> rfl
    · right; simp [raw_put_resp, h]
  · intro v
    rcases h : extract_region_error v with _ | e
    · left; simp only [raw_delete_resp, h]; split <;> rfl
    · right; simp [raw_delete_resp, h]

/-- C4 witness: exclusivity at a concrete server-busy failure and absence
of region error at a concrete success. -/
theorem region_key_error_exclusive_witness :
    ((kv_get_resp (.error .schedTooBusy)).region_error = none
       ∨ (kv_get_resp (.error .schedTooBusy)).error = none)
  ∧ (kv_get_resp (.ok none)).region_error = none :=
  ⟨region_key_error_exclusive.1 (.error .schedTooBusy),
   region_key_error_exclusive.2.2.2.2.2.2.2.2.2.2.2.2.2.1 none⟩

/-- C10: a kv_get success on an absent key sets the value field to the
empty byte string — identical to the response for a stored empty value —
whereas a raw_get success on an absent key leaves the value field unset. -/
theorem kv_get_absent_vs_raw_get :
    kv_get_resp (.ok none) = { value := some [] }
  ∧ kv_get_resp (.ok (some [])) = kv_get_resp (.ok none)
  ∧ raw_get_resp (.ok none) = {}
  ∧ (raw_get_resp (.ok none)).value = none := by
  refine ⟨rfl, rfl, rfl, rfl⟩

/-- C7: a cleanup failing because the transaction was already committed
yields the commit timestamp and no key error; any other failure without a
region error yields the classified key error and no commit timestamp. -/
theorem kv_cleanup_committed :
    (∀ ts : Nat,
       kv_cleanup_resp (.error (.txn (.mvcc (.committed ts))))
         = { commit_version := some ts }
       ∧ extract_committed (.txn (.mvcc (.committed ts))) = some ts)
  ∧ (∀ e : StorageError,
       extract_region_error (Except.error e : StorageResult Unit) = none →
       extract_committed e = none →
         (kv_cleanup_resp (.error e)).error = some (extract_key_error e)
         ∧ (kv_cleanup_resp (.error e)).commit_version = none) := by
  constructor
  · exact fun ts => ⟨rfl, rfl⟩
  · intro e h1 h2
    constructor <;> simp [kv_cleanup_resp, h1, h2]

/-- C7 witness: cleanup of an already-committed transaction at commit ts 42
and cleanup of an unrelated error. -/
theorem kv_cleanup_committed_witness :
    (kv_cleanup_resp (.error (.txn (.mvcc (.committed 42))))
       = { commit_version := some 42 })
  ∧ ((kv_cleanup_resp (.error (.other "boom"))).error
       = some (extract_key_error (.other "boom"))
     ∧ (kv_cleanup_resp (.error (.other "boom"))).commit_version = none) :=
  ⟨(kv_cleanup_committed.1 42).1,
   kv_cleanup_committed.2 (.other "boom") (by decide) (by decide)⟩

/-- Specification-side predicate: a KvPair slot reflects its element's
engine result (key/value on success, classified key error on failure). -/
def pair_reflects (r : StorageResult (Bytes × Bytes)) (p : KvPair) : Prop :=
  match r with
  | .ok (k, v) => p.key = k ∧ p.value = v ∧ p.error = none
  | .error e => p.error = some (extract_key_error e)

/-- Specification-side extraction of the failed elements of a batch, in
input order. -/
def batch_errors : List (StorageResult Unit) → List StorageError
  | [] => []
  | .ok _ :: rest => batch_errors rest
  | .error e :: rest => e :: batch_errors rest

/-- C1 falsified: over the two-element batch [success, failure],
extract_key_errors produces a single output slot, not one slot per input
key. -/
theorem extract_key_errors_drops_success_slots :
    ([Except.ok (), Except.error (StorageError.other "boom")]
       : List (StorageResult Unit)).length = 2
  ∧ (extract_key_errors
       (.ok [Except.ok (), Except.error (StorageError.other "boom")])).length
      = 1 := by
  exact ⟨rfl, rfl⟩

/-- C1 amended: extract_kv_pairs yields exactly one slot per input element,
in input order, each slot independently reflecting its element's success or
classified key error; extract_key_errors yields one slot per FAILED element
in input order (successful elements contribute no slot); a whole-batch
failure yields a single representative error element in both. -/
theorem batch_extraction_shape :
    (∀ rs, (extract_kv_pairs (.ok rs)).length = rs.length)
  ∧ (∀ rs, List.Forall₂ pair_reflects rs (extract_kv_pairs (.ok rs)))
  ∧ (∀ rs, extract_key_errors (.ok rs) = (batch_errors rs).map extract_key_error)
  ∧ (∀ e, extract_kv_pairs (.error e) = [{ error := some (extract_key_error e) }])
  ∧ (∀ e, extract_key_errors (.error e) = [extract_key_error e]) := by
  refine ⟨?_, ?_, ?_, fun e => rfl, fun e => rfl⟩
  · intro rs; simp [extract_kv_pairs]
  · intro rs
    induction rs with
    | nil => simp [extract_kv_pairs]
    | cons r rest ih =>
        refine List.Forall₂.cons ?_ ?_
        · rcases r with ⟨k, v⟩ | e <;> simp [pair_reflects]
        · simpa [extract_kv_pairs] using ih
  · intro rs
    induction rs with
    | nil => rfl
    | cons r rest ih =>
        rcases r with _ | e <;>
          simp [extract_key_errors, batch_errors] at ih ⊢ <;> exact ih

/-- C1 amended witness: the slot count over a concrete mixed batch and the
failed-elements equation over a concrete mixed batch. -/
theorem batch_extraction_shape_witness :
    (extract_kv_pairs
       (.ok [Except.ok ([1], [2]), Except.error (StorageError.other "e")])).length
      = ([Except.ok ([1], [2]), Except.error (StorageError.other "e")]
           : List (StorageResult (Bytes × Bytes))).length
  ∧ extract_key_errors (.ok [Except.ok (), Except.error (StorageError.other "e")])
      = (batch_errors [Except.ok (), Except.error (StorageError.other "e")]).map
          extract_key_error :=
  ⟨batch_extraction_shape.1 [Except.ok ([1], [2]),
     Except.error (StorageError.other "e")],
   batch_extraction_shape.2.2.1 [Except.ok (),
     Except.error (StorageError.other "e")]⟩

/-- A chunk's per-chunk dispatch never produces the Close task. -/
theorem snap_chunk_task_not_close : ∀ (token : Nat) (c : SnapshotChunk),
    snap_chunk_task token c ≠ some (.close token) := by
  intro token c
  rcases c with ⟨m, d⟩
  rcases m with _ | mm
  · simp only [snap_chunk_task]
    split <;> simp
  · simp [snap_chunk_task]

/-- The for_each phase never schedules Close (Close comes only from the
terminal step). -/
theorem snap_for_each_no_close (schedOk : SnapTask → Bool) (token : Nat) :
    ∀ chunks, SnapTask.close token ∉ (snap_for_each schedOk token chunks).1 := by
  intro chunks
  induction chunks with
  | nil => simp [snap_for_each]
  | cons c cs ih =>
      simp only [snap_for_each]
      rcases hc : snap_chunk_task token c with _ | t
      · simp
      · by_cases hs : schedOk t
        · simp only [hs, if_true, List.mem_cons]
          rintro (h | h)
          · rw [← h] at hc
            exact snap_chunk_task_not_close token c hc
          · exact absurd h ih
        · simp [hs]

/-- A stream containing a protocol-violating chunk makes the for_each phase
fail (even when every schedule succeeds). -/
theorem snap_violation_fails (token : Nat) :
    ∀ chunks, (∃ c ∈ chunks, snap_chunk_task token c = none) →
      (snap_for_each (fun _ => true) token chunks).2 = false := by
  intro chunks
  induction chunks with
  | nil => simp
  | cons c cs ih =>
      rintro ⟨c2, hmem, hviol⟩
      rcases List.mem_cons.mp hmem with rfl | h2
      · simp only [snap_for_each, hviol]
      · simp only [snap_for_each]
        rcases hc : snap_chunk_task token c with _ | t
        · rfl
        · simp [ih ⟨c2, h2, hviol⟩]

/-- A violation-free stream is consumed whole; every chunk's task is
scheduled in input order. -/
theorem snap_clean_runs (token : Nat) :
    ∀ chunks, (∀ c ∈ chunks, snap_chunk_task token c ≠ none) →
      (snap_for_each (fun _ => true) token chunks)
        = (chunks.filterMap (snap_chunk_task token), true) := by
  intro chunks
  induction chunks with
  | nil => intro _; rfl
  | cons c cs ih =>
      intro hall
      have hc : snap_chunk_task token c ≠ none := hall c (List.mem_cons_self c cs)
      rcases hco : snap_chunk_task token c with _ | t
      · exact absurd hco hc
      · simp only [snap_for_each, hco, List.filterMap_cons]
        simp [ih (fun c2 h2 => hall c2 (List.mem_cons_of_mem c h2))]

/-- C2 falsified: a stream consisting of one empty chunk (no header, no
data) schedules a Discard AND still sends the success acknowledgment to the
sink. -/
theorem snapshot_violation_still_acked :
    snapshot_handler (fun _ => true) 1 [{ message := none, data := [] }]
      = ([SnapTask.discard 1], true) := by
  rfl

/-- C2 amended: on a stream containing a protocol violation (all schedules
succeeding), the handler schedules a Discard for the token, never a Close,
and STILL sends the success acknowledgment; on a violation-free stream it
schedules every chunk task followed by Close and acknowledges; in general
the acknowledgment is sent exactly when the terminal task (Close on a clean
stream, Discard otherwise) was scheduled successfully. -/
theorem snapshot_discard_and_ack :
    (∀ (token : Nat) (chunks : List SnapshotChunk),
       (∃ c ∈ chunks, snap_chunk_task token c = none) →
         SnapTask.discard token ∈ (snapshot_handler (fun _ => true) token chunks).1
         ∧ SnapTask.close token ∉ (snapshot_handler (fun _ => true) token chunks).1
         ∧ (snapshot_handler (fun _ => true) token chunks).2 = true)
  ∧ (∀ (token : Nat) (chunks : List SnapshotChunk),
       (∀ c ∈ chunks, snap_chunk_task token c ≠ none) →
         snapshot_handler (fun _ => true) token chunks
           = (chunks.filterMap (snap_chunk_task token) ++ [SnapTask.close token],
              true))
  ∧ (∀ (schedOk : SnapTask → Bool) (token : Nat) (chunks : List SnapshotChunk),
       (snapshot_handler schedOk token chunks).2
         = schedOk (if (snap_for_each schedOk token chunks).2 then
                      SnapTask.close token
                    else SnapTask.discard token)) := by
  refine ⟨?_, ?_, ?_⟩
  · intro token chunks hex
    have hv := snap_violation_fails token chunks hex
    have hnc := snap_for_each_no_close (fun _ => true) token chunks
    simp [snapshot_handler, hv, hnc]
  · intro token chunks hall
    simp [snapshot_handler, snap_clean_runs token chunks hall]
  · intro schedOk token chunks
    simp only [snapshot_handler]
    by_cases h : schedOk (if (snap_for_each schedOk token chunks).2 then
                            SnapTask.close token
                          else SnapTask.discard token) <;>
      simp [h]

/-- C2 witness: the amended theorem applied to a violating stream and to a
clean header-plus-data stream. -/
theorem snapshot_discard_and_ack_witness :
    (SnapTask.discard 1
       ∈ (snapshot_handler (fun _ => true) 1 [{ message := none, data := [] }]).1
     ∧ SnapTask.close 1
       ∉ (snapshot_handler (fun _ => true) 1 [{ message := none, data := [] }]).1
     ∧ (snapshot_handler (fun _ => true) 1 [{ message := none, data := [] }]).2
         = true)
  ∧ snapshot_handler (fun _ => true) 2
      [{ message := some 9, data := [] }, { message := none, data := [7] }]
      = ([SnapTask.register 2 9, SnapTask.write 2 [7], SnapTask.close 2], true) :=
  ⟨snapshot_discard_and_ack.1 1 [{ message := none, data := [] }]
     ⟨{ message := none, data := [] }, by simp, by rfl⟩,
   by
     have h := snapshot_discard_and_ack.2.1 2
       [{ message := some 9, data := [] }, { message := none, data := [7] }]
       (by decide)
     simpa using h⟩

/-- When the router accepts every message, the raft for_each forwards the
whole stream and succeeds. -/
theorem raft_for_each_all_ok (routerOk : Nat → Bool) :
    ∀ msgs, (∀ m ∈ msgs, routerOk m = true) →
      raft_for_each routerOk msgs = (msgs, true) := by
  intro msgs
  induction msgs with
  | nil => intro _; rfl
  | cons m ms ih =>
      intro hall
      simp only [raft_for_each, hall m (List.mem_cons_self m ms), if_true]
      simp [ih (fun x hx => hall x (List.mem_cons_of_mem m hx))]

/-- C9 falsified: even for a stream that ends cleanly with every message
forwarded, the handler never writes an acknowledgment to the response sink
(the sink parameter is ignored). -/
theorem raft_stream_no_ack :
    (raft_handler (fun _ => true) [3]).forwarded = [3]
  ∧ (raft_handler (fun _ => true) [3]).completed = true
  ∧ (raft_handler (fun _ => true) [3]).ackSent = false := by
  exact ⟨rfl, rfl, rfl⟩

/-- C9 amended: errors while forwarding are swallowed — the spawned future
always completes successfully whatever the router does (a failure stops
forwarding of the remaining messages), and when the router accepts all
messages the whole stream is forwarded — but the handler never writes to
the response sink at all: no acknowledgment is produced by this code. -/
theorem raft_stream_best_effort :
    (∀ (routerOk : Nat → Bool) (msgs : List Nat),
       (raft_handler routerOk msgs).completed = true
       ∧ (raft_handler routerOk msgs).ackSent = false)
  ∧ (∀ (routerOk : Nat → Bool) (msgs : List Nat),
       (∀ m ∈ msgs, routerOk m = true) →
         (raft_handler routerOk msgs).forwarded = msgs) := by
  constructor
  · exact fun routerOk msgs => ⟨rfl, rfl⟩
  · intro routerOk msgs hall
    simp [raft_handler, raft_for_each_all_ok routerOk msgs hall]

/-- C9 amended witness: a two-message stream with an accepting router. -/
theorem raft_stream_best_effort_witness :
    ((raft_handler (fun _ => true) [4, 5]).completed = true
     ∧ (raft_handler (fun _ => true) [4, 5]).ackSent = false)
  ∧ (raft_handler (fun _ => true) [4, 5]).forwarded = [4, 5] :=
  ⟨raft_stream_best_effort.1 (fun _ => true) [4, 5],
   raft_stream_best_effort.2 (fun _ => true) [4, 5] (by decide)⟩

/-- C3 falsified: a successful resolution for a snapshot transfer DOES
insert the resolved address into the address cache. -/
theorem snapshot_addr_cached :
    (on_resolve_result {} 7 (.ok 42)
       { msg := {}, is_snapshot := true }).1.store_addrs = [(7, 42)] := by
  rfl

/-- C3 amended: a snapshot send always issues a fresh resolution without
consulting or modifying the cache; send_store never modifies the cache for
any message; every SUCCESSFUL resolution — snapshot transfers included —
inserts the resolved address into the cache, and a failed resolution leaves
the cache unchanged. -/
theorem snapshot_resolution_fresh :
    (∀ (s : RouterState) (store_id : Nat) (data : ConnData),
       data.is_snapshot = true →
         send_store s store_id data = (s, [.resolve store_id data]))
  ∧ (∀ s store_id data,
       (send_store s store_id data).1.store_addrs = s.store_addrs)
  ∧ (∀ s store_id addr data,
       (on_resolve_result s store_id (.ok addr) data).1.store_addrs
         = alist_insert s.store_addrs store_id addr)
  ∧ (∀ s store_id data,
       (on_resolve_result s store_id (.error ()) data).1.store_addrs
         = s.store_addrs) := by
  refine ⟨?_, ?_, ?_, ?_⟩
  · intro s store_id data h
    simp [send_store, h]
  · intro s store_id data
    simp only [send_store]
    split
    · rfl
    · split
      · rfl
      · split <;> rfl
  · intro s store_id addr data
    simp only [on_resolve_result]
    by_cases h : data.is_snapshot <;> simp [h]
  · intro s store_id data
    simp only [on_resolve_result]
    by_cases h : data.is_snapshot <;> simp [h]

/-- C3 amended witness: the fresh-resolution equation at a concrete
snapshot message, and the cache insertion at a concrete resolution. -/
theorem snapshot_resolution_fresh_witness :
    send_store { store_addrs := [(7, 3)], store_resolving := [] } 7
        { msg := {}, is_snapshot := true }
      = ({ store_addrs := [(7, 3)], store_resolving := [] },
         [.resolve 7 { msg := {}, is_snapshot := true }])
  ∧ (on_resolve_result {} 7 (.ok 42)
       { msg := {}, is_snapshot := true }).1.store_addrs
      = alist_insert ([] : List (Nat × Nat)) 7 42 :=
  ⟨snapshot_resolution_fresh.1 { store_addrs := [(7, 3)], store_resolving := [] }
     7 { msg := {}, is_snapshot := true } (by rfl),
   snapshot_resolution_fresh.2.2.1 {} 7 42 { msg := {}, is_snapshot := true }⟩

/-- C5: a non-snapshot send to a store with no cached address is reported
unreachable immediately (no state change, no resolution) when the store is
already being resolved; otherwise the store enters the resolving set and
exactly one resolution is issued — so two successive sends to the same
unresolved store produce exactly one resolution request and one
unreachable report. -/
theorem resolving_set_single_resolution :
    (∀ (s : RouterState) (store_id : Nat) (data : ConnData),
       data.is_snapshot = false →
       alist_get s.store_addrs store_id = none →
       store_id ∈ s.store_resolving →
         send_store s store_id data = (s, [report_unreachable data]))
  ∧ (∀ (s : RouterState) (store_id : Nat) (data : ConnData),
       data.is_snapshot = false →
       alist_get s.store_addrs store_id = none →
       store_id ∉ s.store_resolving →
         send_store s store_id data
           = ({ s with store_resolving := set_insert s.store_resolving store_id },
              [.resolve store_id data]))
  ∧ (∀ (s : RouterState) (store_id : Nat) (d1 d2 : ConnData),
       d1.is_snapshot = false → d2.is_snapshot = false →
       alist_get s.store_addrs store_id = none →
       store_id ∉ s.store_resolving →
         (send_store s store_id d1).2
             ++ (send_store (send_store s store_id d1).1 store_id d2).2
           = [RouterEvent.resolve store_id d1, report_unreachable d2]
         ∧ (send_store (send_store s store_id d1).1 store_id d2).1
             = (send_store s store_id d1).1) := by
  refine ⟨?_, ?_, ?_⟩
  · intro s store_id data h1 h2 h3
    simp [send_store, h1, h2, h3]
  · intro s store_id data h1 h2 h3
    simp [send_store, h1, h2, h3]
  · intro s store_id d1 d2 h1 h2 h3 h4
    have e1 : send_store s store_id d1
        = ({ s with store_resolving := set_insert s.store_resolving store_id },
           [.resolve store_id d1]) := by
      simp [send_store, h1, h3, h4]
    have hmem : store_id ∈ set_insert s.store_resolving store_id := by
      simp [set_insert]
      split <;> simp_all
    have e2 : send_store
          ({ s with store_resolving := set_insert s.store_resolving store_id })
          store_id d2
        = ({ s with store_resolving := set_insert s.store_resolving store_id },
           [report_unreachable d2]) := by
      simp [send_store, h2, h3, hmem]
    rw [e1]
    constructor
    · rw [e2]
      rfl
    · rw [e2]

/-- C5 witness: two sends to store 7 with nothing cached and nothing
resolving: one resolution then one unreachable report. -/
theorem resolving_set_single_resolution_witness :
    (send_store {} 7 { msg := {}, is_snapshot := false }).2
        ++ (send_store (send_store {} 7 { msg := {}, is_snapshot := false }).1 7
              { msg := { region_id := 1 }, is_snapshot := false }).2
      = [RouterEvent.resolve 7 { msg := {}, is_snapshot := false },
         report_unreachable { msg := { region_id := 1 }, is_snapshot := false }] :=
  (resolving_set_single_resolution.2.2 {} 7
    { msg := {}, is_snapshot := false }
    { msg := { region_id := 1 }, is_snapshot := false }
    rfl rfl rfl (by simp)).1

/-- Looking up the removed key after alist_remove finds nothing. -/
theorem alist_get_remove_self : ∀ (m : List (Nat × Nat)) (k : Nat),
    alist_get (alist_remove m k) k = none := by
  intro m k
  induction m with
  | nil => rfl
  | cons p rest ih =>
      rcases p with ⟨k2, v2⟩
      by_cases h : k2 = k <;> simp [alist_remove, alist_get, h, ih]

/-- alist_remove yields a sublist. -/
theorem alist_remove_sublist : ∀ (m : List (Nat × Nat)) (k : Nat),
    (alist_remove m k).Sublist m := by
  intro m k
  induction m with
  | nil => simp [alist_remove]
  | cons p rest ih =>
      rcases p with ⟨k2, v2⟩
      by_cases h : k2 = k
      · simp only [alist_remove, if_pos h]
        exact ih.cons _
      · simp only [alist_remove, if_neg h]
        exact ih.cons₂ _

/-- Looking up the inserted key finds the inserted value. -/
theorem alist_get_insert_self : ∀ (m : List (Nat × Nat)) (k v : Nat),
    alist_get (alist_insert m k v) k = some v := by
  intro m k v
  induction m with
  | nil => simp [alist_insert, alist_get]
  | cons q rest ih =>
      rcases q with ⟨k2, v2⟩
      by_cases h : k2 = k <;> simp [alist_insert, alist_get, h, ih]

/-- Entries of alist_insert are the inserted pair or old entries. -/
theorem mem_alist_insert : ∀ (m : List (Nat × Nat)) (k v : Nat) (p : Nat × Nat),
    p ∈ alist_insert m k v → p = (k, v) ∨ p ∈ m := by
  intro m k v p
  induction m with
  | nil => simp [alist_insert]
  | cons q rest ih =>
      rcases q with ⟨k2, v2⟩
      simp only [alist_insert]
      by_cases h : k2 = k
      · rw [if_pos h]
        intro hp
        rcases List.mem_cons.mp hp with h2 | h2
        · exact Or.inl h2
        · exact Or.inr (List.mem_cons_of_mem _ h2)
      · rw [if_neg h]
        intro hp
        rcases List.mem_cons.mp hp with h2 | h2
        · exact Or.inr (h2 ▸ List.mem_cons_self _ _)
        · rcases ih h2 with h3 | h3
          · exact Or.inl h3
          · exact Or.inr (List.mem_cons_of_mem _ h3)

/-- alist_insert preserves key uniqueness. -/
theorem alist_insert_keys_nodup : ∀ (m : List (Nat × Nat)) (k v : Nat),
    (m.map Prod.fst).Nodup → ((alist_insert m k v).map Prod.fst).Nodup := by
  intro m k v
  induction m with
  | nil => intro _; simp [alist_insert]
  | cons q rest ih =>
      rcases q with ⟨k2, v2⟩
      intro hnd
      simp only [List.map_cons, List.nodup_cons] at hnd
      by_cases h : k2 = k
      · subst h
        simp [alist_insert, List.nodup_cons]
        exact ⟨fun x hx => hnd.1 (List.mem_map_of_mem Prod.fst hx), hnd.2⟩
      · simp only [alist_insert, if_neg h, List.map_cons, List.nodup_cons]
        refine ⟨?_, ih hnd.2⟩
        intro hk2
        rcases List.mem_map.mp hk2 with ⟨p, hp, hpk⟩
        rcases mem_alist_insert rest k v p hp with h3 | h3
        · exact h (by rw [← hpk, h3])
        · exact hnd.1 (hpk ▸ List.mem_map_of_mem Prod.fst h3)

/-- Entries of alist_remove are old entries. -/
theorem mem_alist_remove : ∀ (m : List (Nat × Nat)) (k : Nat) (p : Nat × Nat),
    p ∈ alist_remove m k → p ∈ m := by
  intro m k p hp
  exact (alist_remove_sublist m k).subset hp

/-- alist_remove preserves key uniqueness. -/
theorem alist_remove_keys_nodup : ∀ (m : List (Nat × Nat)) (k : Nat),
    (m.map Prod.fst).Nodup → ((alist_remove m k).map Prod.fst).Nodup := by
  intro m k hnd
  exact hnd.sublist ((alist_remove_sublist m k).map Prod.fst)

/-- C8: a failed send removes the connection entry for that address and the
failed message is pushed exactly once (never retried); every run pushes
exactly one message; a send to an address with no connection pushes on a
lazily created fresh connection (id = the current fresh counter) which is
stored on success; key uniqueness of the pool map and the freshness bound
on connection ids are preserved. -/
theorem conn_pool_drop_on_failure :
    (∀ (sendOk : Nat → Bool) (s : SendRunnerState) (t : SendTask),
       sendOk (get_conn s t.addr).1 = false →
         alist_get (SendRunner_run sendOk s t).1.conns t.addr = none
         ∧ (SendRunner_run sendOk s t).2
             = [{ conn_id := (get_conn s t.addr).1, msg := t.msg, ok := false }])
  ∧ (∀ sendOk s t, (SendRunner_run sendOk s t).2.length = 1)
  ∧ (∀ (sendOk : Nat → Bool) (s : SendRunnerState) (t : SendTask),
       alist_get s.conns t.addr = none →
         (SendRunner_run sendOk s t).2
           = [{ conn_id := s.next_id, msg := t.msg, ok := sendOk s.next_id }])
  ∧ (∀ (sendOk : Nat → Bool) (s : SendRunnerState) (t : SendTask),
       sendOk s.next_id = true →
       alist_get s.conns t.addr = none →
         alist_get (SendRunner_run sendOk s t).1.conns t.addr = some s.next_id)
  ∧ (∀ (sendOk : Nat → Bool) (s : SendRunnerState) (t : SendTask),
       (s.conns.map Prod.fst).Nodup →
         ((SendRunner_run sendOk s t).1.conns.map Prod.fst).Nodup)
  ∧ (∀ (sendOk : Nat → Bool) (s : SendRunnerState) (t : SendTask),
       (∀ p ∈ s.conns, p.2 < s.next_id) →
         ∀ p ∈ (SendRunner_run sendOk s t).1.conns,
           p.2 < (SendRunner_run sendOk s t).1.next_id) := by
  refine ⟨?_, ?_, ?_, ?_, ?_, ?_⟩
  · intro sendOk s t h
    constructor
    · simp [SendRunner_run, h, alist_get_remove_self]
    · simp [SendRunner_run, h]
  · intro sendOk s t
    simp only [SendRunner_run]
    by_cases h : sendOk (get_conn s t.addr).1 <;> simp [h]
  · intro sendOk s t h
    simp only [SendRunner_run, get_conn, h]
    by_cases h2 : sendOk s.next_id <;> simp [h2]
  · intro sendOk s t h1 h2
    simp [SendRunner_run, get_conn, h2, h1, alist_get_insert_self]
  · intro sendOk s t hnd
    simp only [SendRunner_run, get_conn]
    rcases hg : alist_get s.conns t.addr with _ | cid
    · by_cases hs : sendOk s.next_id <;>
        simp [hs, alist_insert_keys_nodup s.conns t.addr s.next_id hnd,
              alist_remove_keys_nodup _ t.addr
                (alist_insert_keys_nodup s.conns t.addr s.next_id hnd)]
    · by_cases hs : sendOk cid <;>
        simp [hs, hnd, alist_remove_keys_nodup s.conns t.addr hnd]
  · intro sendOk s t hb
    simp only [SendRunner_run, get_conn]
    rcases hg : alist_get s.conns t.addr with _ | cid
    · by_cases hs : sendOk s.next_id <;> simp only [hs, if_true, if_false] <;>
        intro p hp
      · rcases mem_alist_insert s.conns t.addr s.next_id p hp with h3 | h3
        · rw [h3]; exact Nat.lt_succ_self _
        · exact Nat.lt_succ_of_lt (hb p h3)
      · rcases mem_alist_insert s.conns t.addr s.next_id p
            (mem_alist_remove _ t.addr p hp) with h3 | h3
        · rw [h3]; exact Nat.lt_succ_self _
        · exact Nat.lt_succ_of_lt (hb p h3)
    · by_cases hs : sendOk cid <;> simp only [hs, if_true, if_false] <;>
        intro p hp
      · exact hb p hp
      · exact hb p (mem_alist_remove _ t.addr p hp)

/-- C8 witness: a failing send to address 9 over the existing connection 0
removes the entry and pushes once; a send to an empty pool pushes on the
fresh connection 0. -/
theorem conn_pool_drop_on_failure_witness :
    (alist_get (SendRunner_run (fun _ => false)
         { conns := [(9, 0)], next_id := 1 } { addr := 9, msg := {} }).1.conns 9
       = none
     ∧ (SendRunner_run (fun _ => false)
          { conns := [(9, 0)], next_id := 1 } { addr := 9, msg := {} }).2
         = [{ conn_id := 0, msg := {}, ok := false }])
  ∧ (SendRunner_run (fun _ => false) {} { addr := 9, msg := {} }).2
      = [{ conn_id := 0, msg := {}, ok := false }] :=
  ⟨conn_pool_drop_on_failure.1 (fun _ => false)
     { conns := [(9, 0)], next_id := 1 } { addr := 9, msg := {} } rfl,
   conn_pool_drop_on_failure.2.2.1 (fun _ => false) {} { addr := 9, msg := {} } rfl⟩

end Tikv
